import Mathlib

/-!
# Verification of the recurly-client-python resource-marshaling layer

A shallow embedding of `recurly/__init__.py` (version 2.1.7) into Lean 4.

The repository ships only `recurly/__init__.py`; the base class
`recurly.resource.Resource` that it imports is not part of the sources.
Wherever a definition embeds behaviour of that missing base class, its doc
comment starts with `Modelled from the spec:` and the definition follows the
specification's words.  Everything else is translated directly from
`recurly/__init__.py`.
-/

set_option autoImplicit false

namespace Recurly

/-- An XML element tree node, mirroring `xml.etree.ElementTree.Element`:
a tag, an attribute dictionary, optional text, and a list of children. -/
inductive Element : Type where
  | mk (tag : String) (attrib : List (String × String)) (text : Option String)
      (children : List Element)

namespace Element

def tag : Element → String
  | .mk t _ _ _ => t

def attrib : Element → List (String × String)
  | .mk _ a _ _ => a

def text : Element → Option String
  | .mk _ _ x _ => x

def children : Element → List Element
  | .mk _ _ _ c => c

/-- Python `elem.attrib.get(key)` / `elem.attrib[key]` lookup. -/
def attrGet (e : Element) (key : String) : Option String :=
  (e.attrib.lookup key)

/-- Python `elem.find(tag)`: the first direct child with the given tag. -/
def find (e : Element) (t : String) : Option Element :=
  e.children.find? (fun c => c.tag = t)

/-- Python `elem.findall(tag)`: all direct children with the given tag. -/
def findall (e : Element) (t : String) : List Element :=
  e.children.filter (fun c => c.tag = t)

end Element

/-- A Python runtime value as produced by the decoding machinery: `None`,
a string, a list, or a resource instance (`res tag elem locals`, where `elem`
is the retained source element and `locals` the instance `__dict__`). -/
inductive PyVal : Type where
  | none
  | str (s : String)
  | list (xs : List PyVal)
  | res (tag : String) (elem : Option Element) (locs : List (String × PyVal))

/-- A Python exception as surfaced by the code paths embedded here. -/
inductive PyErr : Type where
  | attributeError (name : String)
  | keyError (key : String)
  | valueError (msg : String)
  | typeError (msg : String)
  | assertionError
  | httpError (status : Nat)
  deriving DecidableEq

/-- The tag-name registry: the `nodename` of every resource class declared in
`recurly/__init__.py`, gathered by `Resource._learn_nodenames(locals().values())`. -/
def nodenames : List String :=
  ["account", "billing_info", "coupon", "redemption", "adjustment", "invoice",
   "subscription", "transaction", "details", "transaction_error", "plan",
   "add_on", "subscription_add_on"]

mutual

/-- Modelled from the spec: the generic Value Codec decode plus Type Registry
dispatch (`Resource.value_for_element`; `recurly/resource.py` is not under
`src/`).  An element whose `type` attribute is `"array"` decodes to the list of
its decoded children (order preserved); an element whose tag is a registered
nodename decodes to an entity instance wrapping the element (zero-cost
hydrate, empty `__dict__`); otherwise the element decodes to its text, or to
the `None` value when it has no text. -/
def valueForElement : Element → PyVal
  | .mk t a x c =>
    if (Element.mk t a x c).attrGet "type" = some "array" then
      .list (valueForChildren c)
    else if nodenames.contains t then
      .res t (some (.mk t a x c)) []
    else
      match x with
      | some s => .str s
      | Option.none => .none

/-- Decode a list of child elements in order (helper for `valueForElement`). -/
def valueForChildren : List Element → List PyVal
  | [] => []
  | e :: es => valueForElement e :: valueForChildren es

end

/-- Modelled from the spec: the generic Value Codec encode
(`Resource.element_for_value`, not under `src/`): `encode(name, value)`
produces an element tagged with the field name.  A string becomes the
element's text; `None` is marked with a `nil` attribute (the "not present"
sentinel is distinguished from an explicit empty value); lists and
sub-resources are modelled one level shallow — no schema of this client
encodes them through the generic codec (the only array-valued field,
`plan_codes`, uses the `Coupon` override embedded below), and no theorem
below depends on their generic encoding. -/
def elementForValue (name : String) (v : PyVal) : Element :=
  match v with
  | .none => .mk name [("nil", "nil")] Option.none []
  | .str s => .mk name [] (some s) []
  | .list _ => .mk name [("type", "array")] Option.none []
  | .res _ _ _ => .mk name [] Option.none []

/-- The static schema of a resource class: its nodename and the attribute
classification tuples declared in `recurly/__init__.py`. -/
structure Schema where
  nodename : String
  attributes : List String
  sensitive : List String := []
  xmlAttrAttrs : List String := []
  linked : List String := []

/-- `Account`'s declarations (`recurly/__init__.py`, class `Account`). -/
def accountSchema : Schema :=
  { nodename := "account"
    attributes := ["account_code", "billing_info", "state", "username", "email",
      "first_name", "last_name", "company_name", "accept_language",
      "hosted_login_token", "created_at"]
    sensitive := ["number", "verification_value"]
    linked := ["adjustments", "billing_info", "invoices", "redemption",
      "subscriptions", "transactions"] }

/-- `BillingInfo`'s declarations (`recurly/__init__.py`, class `BillingInfo`). -/
def billingInfoSchema : Schema :=
  { nodename := "billing_info"
    attributes := ["type", "first_name", "last_name", "number",
      "verification_value", "year", "month", "start_month", "start_year",
      "issue_number", "company", "address1", "address2", "city", "state",
      "zip", "country", "phone", "vat_number", "ip_address",
      "ip_address_country", "card_type", "first_six", "last_four",
      "billing_agreement_id"]
    sensitive := ["number", "verification_value"]
    xmlAttrAttrs := ["type"]
    linked := ["account"] }

/-- `Coupon`'s declarations (`recurly/__init__.py`, class `Coupon`). -/
def couponSchema : Schema :=
  { nodename := "coupon"
    attributes := ["coupon_code", "name", "discount_type", "discount_percent",
      "discount_in_cents", "redeem_by_date", "single_use", "applies_for_months",
      "max_redemptions", "applies_to_all_plans", "created_at", "plan_codes"]
    linked := ["redemptions"] }

/-- `Redemption`'s declarations (`recurly/__init__.py`, class `Redemption`). -/
def redemptionSchema : Schema :=
  { nodename := "redemption"
    attributes := ["account_code", "single_use", "total_discounted_in_cents",
      "currency", "created_at"]
    linked := ["account", "coupon"] }

/-- `Adjustment`'s declarations (`recurly/__init__.py`, class `Adjustment`). -/
def adjustmentSchema : Schema :=
  { nodename := "adjustment"
    attributes := ["uuid", "description", "accounting_code", "quantity",
      "unit_amount_in_cents", "discount_in_cents", "tax_in_cents",
      "total_in_cents", "currency", "taxable", "start_date", "end_date",
      "created_at", "type"]
    xmlAttrAttrs := ["type"]
    linked := ["account"] }

/-- `Invoice`'s declarations (`recurly/__init__.py`, class `Invoice`). -/
def invoiceSchema : Schema :=
  { nodename := "invoice"
    attributes := ["uuid", "state", "invoice_number", "po_number", "vat_number",
      "subtotal_in_cents", "tax_in_cents", "total_in_cents", "currency",
      "created_at", "line_items", "transactions"]
    linked := ["account"] }

/-- `Subscription`'s declarations (`recurly/__init__.py`, class `Subscription`). -/
def subscriptionSchema : Schema :=
  { nodename := "subscription"
    attributes := ["uuid", "state", "plan_code", "coupon_code", "quantity",
      "activated_at", "canceled_at", "starts_at", "expires_at",
      "current_period_started_at", "current_period_ends_at",
      "trial_started_at", "trial_ends_at", "unit_amount_in_cents",
      "total_billing_cycles", "first_renewal_date", "timeframe", "currency",
      "pending_subscription", "subscription_add_ons", "account"]
    sensitive := ["number", "verification_value"]
    linked := ["account"] }

/-- `Transaction`'s declarations (`recurly/__init__.py`, class `Transaction`). -/
def transactionSchema : Schema :=
  { nodename := "transaction"
    attributes := ["uuid", "action", "currency", "amount_in_cents",
      "tax_in_cents", "status", "source", "reference", "test", "voidable",
      "description", "refundable", "cvv_result", "avs_result",
      "avs_result_street", "avs_result_postal", "created_at", "details",
      "transaction_error", "type", "account"]
    sensitive := ["number", "verification_value"]
    xmlAttrAttrs := ["type"]
    linked := ["account", "invoice", "subscription"] }

/-- `Details`' declarations (`recurly/__init__.py`, class `Details`). -/
def detailsSchema : Schema :=
  { nodename := "details"
    attributes := ["account", "transaction_error"] }

/-- `TransactionError`'s declarations (`recurly/__init__.py`,
class `TransactionError`). -/
def transactionErrorSchema : Schema :=
  { nodename := "transaction_error"
    attributes := ["error_code", "error_category", "merchant_message",
      "customer_message"] }

/-- `Plan`'s declarations (`recurly/__init__.py`, class `Plan`). -/
def planSchema : Schema :=
  { nodename := "plan"
    attributes := ["plan_code", "name", "description", "success_url",
      "cancel_url", "display_donation_amounts", "display_quantity",
      "display_phone_number", "bypass_hosted_confirmation", "unit_name",
      "payment_page_tos_link", "plan_interval_length", "plan_interval_unit",
      "trial_interval_length", "trial_interval_unit", "accounting_code",
      "created_at", "unit_amount_in_cents", "setup_fee_in_cents"]
    linked := ["add_ons"] }

/-- `AddOn`'s declarations (`recurly/__init__.py`, class `AddOn`). -/
def addOnSchema : Schema :=
  { nodename := "add_on"
    attributes := ["add_on_code", "name", "display_quantity_on_hosted_page",
      "display_quantity", "default_quantity", "accounting_code",
      "unit_amount_in_cents", "created_at"]
    linked := ["plan"] }

/-- `SubscriptionAddOn`'s declarations (`recurly/__init__.py`,
class `SubscriptionAddOn`). -/
def subscriptionAddOnSchema : Schema :=
  { nodename := "subscription_add_on"
    attributes := ["add_on_code", "quantity", "unit_amount_in_cents"] }

/-- Modelled from the spec: `resolve(tag_name)` of the Type Registry returns
the registered entity type, or a generic fallback type when the tag is
unrecognized (never fails). -/
def schemaFor (t : String) : Schema :=
  if t = "account" then accountSchema
  else if t = "billing_info" then billingInfoSchema
  else if t = "coupon" then couponSchema
  else if t = "redemption" then redemptionSchema
  else if t = "adjustment" then adjustmentSchema
  else if t = "invoice" then invoiceSchema
  else if t = "subscription" then subscriptionSchema
  else if t = "transaction" then transactionSchema
  else if t = "details" then detailsSchema
  else if t = "transaction_error" then transactionErrorSchema
  else if t = "plan" then planSchema
  else if t = "add_on" then addOnSchema
  else if t = "subscription_add_on" then subscriptionAddOnSchema
  else { nodename := t, attributes := [] }

/-- An entity instance: the optional retained source element (`self._elem`)
and the local assignments (`self.__dict__`, attribute name to value, in
insertion order). -/
structure Instance where
  elem : Option Element := Option.none
  locals : List (String × PyVal) := []

/-- Python dictionary assignment `d[k] = v`: replace the first binding of `k`
in place, or append a new binding. -/
def dictSet : List (String × PyVal) → String → PyVal → List (String × PyVal)
  | [], k, v => [(k, v)]
  | (k', v') :: rest, k, v =>
    if k' = k then (k, v) :: rest else (k', v') :: dictSet rest k v

/-- Value stored for an XML-attribute attribute (discriminators are strings on
the wire; a non-string local value is rendered through its text, the empty
string otherwise). -/
def attrText : PyVal → String
  | .str s => s
  | _ => ""

/-- Modelled from the spec: the XML-attribute slot of `Resource.to_element`
for one declared XML-attribute attribute — the locally assigned value wins,
else the discriminator is recovered from the retained element's own XML
attribute (it is always included when recoverable, guarding against
discriminator loss on serialize-after-partial-hydrate). -/
def serializeXmlAttr (inst : Instance) (a : String) : Option (String × String) :=
  match inst.locals.lookup a with
  | some v => some (a, attrText v)
  | Option.none =>
    match inst.elem.bind (fun e => e.attrGet a) with
    | some s => some (a, s)
    | Option.none => Option.none

/-- Modelled from the spec: the child-element slot of `Resource.to_element`
for one declared attribute — XML-attribute attributes are excluded here; a
locally assigned value is encoded by the Value Codec; with `full`, a
non-sensitive attribute may instead be recovered from the retained element;
sensitive attributes are included only when explicitly locally assigned. -/
def serializeField (sch : Schema) (inst : Instance) (full : Bool) (a : String) :
    Option Element :=
  if sch.xmlAttrAttrs.contains a then Option.none
  else
    match inst.locals.lookup a with
    | some v => some (elementForValue a v)
    | Option.none =>
      if full && !(sch.sensitive.contains a) then
        (inst.elem.bind (fun e => e.find a)).map
          (fun c => elementForValue a (valueForElement c))
      else Option.none

/-- Modelled from the spec: `Resource.to_element` (not under `src/`).  It
serializes into a fresh element tagged with the nodename, with one XML
attribute per recoverable declared XML-attribute attribute and one child
per serializable declared attribute, in declaration order. -/
def toElement (sch : Schema) (inst : Instance) (full : Bool) : Element :=
  .mk sch.nodename (sch.xmlAttrAttrs.filterMap (serializeXmlAttr inst))
    Option.none (sch.attributes.filterMap (serializeField sch inst full))

/-- Modelled from the spec: `Resource.from_element` wraps the element without
eagerly decoding any field (zero-cost hydrate, empty `__dict__`). -/
def fromElement (e : Element) : Instance :=
  { elem := some e, locals := [] }

/-- Serialize a decoded resource value by `.to_element()` with its own schema
(dispatching `to_element` on the value's tag through the registry); calling
`.to_element()` on a non-resource value is a Python `AttributeError` and is
not reached by any theorem below. -/
def pyToElement : PyVal → Element
  | .res t e l => toElement (schemaFor t) { elem := e, locals := l } false
  | _ => .mk "" [] Option.none []

/-- The transport collaborator: a pure map from URL to the element the server
would return, plus a counter of issued HTTP fetches (the call-count
observable of the claims). -/
structure World where
  net : String → Element
  fetchCount : Nat := 0

/-- Modelled from the spec: fetch-by-URL (`Resource.element_for_url`, not
under `src/`) on its success path — one reading HTTP call returning the
parsed element. -/
def fetch (w : World) (url : String) : World × Element :=
  ({ w with fetchCount := w.fetchCount + 1 }, w.net url)

/-- Modelled from the spec: `update_from_element` replaces the retained
element and clears cached linked-attribute resolutions. -/
def updateFromElement (sch : Schema) (inst : Instance) (e : Element) : Instance :=
  { elem := some e,
    locals := inst.locals.filter (fun p => !(sch.linked.contains p.1)) }

/-- Modelled from the spec: generic attribute access
(`attribute_get` / `Resource.__getattr__`, not under `src/`).  A local
assignment wins; else a linked attribute is resolved lazily — the child
element with the attribute's name supplies an `href`, the href is fetched,
the result decoded through the Type Registry and cached as a local
assignment; else the matching child of the retained element is decoded by
the Value Codec; else a "no such attribute" condition is raised. -/
def resourceGetattr (sch : Schema) (w : World) (inst : Instance) (name : String) :
    World × Instance × Except PyErr PyVal :=
  match inst.locals.lookup name with
  | some v => (w, inst, .ok v)
  | Option.none =>
    if name ∈ sch.linked then
      match (inst.elem.bind (fun e => e.find name)).bind (fun c => c.attrGet "href") with
      | some url =>
        let (w', e') := fetch w url
        let v := valueForElement e'
        (w', { inst with locals := dictSet inst.locals name v }, .ok v)
      | Option.none => (w, inst, .error (.attributeError name))
    else
      match inst.elem.bind (fun e => e.find name) with
      | some c => (w, inst, .ok (valueForElement c))
      | Option.none => (w, inst, .error (.attributeError name))

/-- `Account.__getattr__` (`recurly/__init__.py`, lines 134–144), composed
with Python's attribute lookup (`__dict__` first, `__getattr__` only on
miss): for `billing_info` it reads the retained element's `billing_info`
child's `href` (any `AttributeError`/`KeyError` along the way becomes
`AttributeError('billing_info')`), fetches it, and returns
`BillingInfo.from_element(elem)` — without storing the result in
`self.__dict__`; every other name defers to the base resolution. -/
def accountGetattr (w : World) (inst : Instance) (name : String) :
    World × Instance × Except PyErr PyVal :=
  match inst.locals.lookup name with
  | some v => (w, inst, .ok v)
  | Option.none =>
    if name = "billing_info" then
      match (inst.elem.bind (fun e => e.find "billing_info")).bind
          (fun c => c.attrGet "href") with
      | some url =>
        let (w', e') := fetch w url
        (w', inst, .ok (.res "billing_info" (some e') []))
      | Option.none => (w, inst, .error (.attributeError name))
    else
      resourceGetattr accountSchema w inst name

/-- `elem.append(child)` on the serialization result. -/
def Element.appendChild (e : Element) (c : Element) : Element :=
  .mk e.tag e.attrib e.text (e.children ++ [c])

/-- `Account.to_element` (`recurly/__init__.py`, lines 72–87): serialize via
the base `to_element`; when `account_code` is not in `self.__dict__`, try
`self.account_code` (full attribute lookup, so it can be recovered from the
retained element) and append its encoding, swallowing an `AttributeError`;
when `billing_info` is in `self.__dict__`, append
`self.billing_info.to_element()`. -/
def accountToElement (w : World) (inst : Instance) (full : Bool) : World × Element :=
  let elem0 := toElement accountSchema inst full
  let step1 : World × Element :=
    if (inst.locals.lookup "account_code").isSome then (w, elem0)
    else
      match accountGetattr w inst "account_code" with
      | (w', _, .error _) => (w', elem0)
      | (w', _, .ok v) => (w', elem0.appendChild (elementForValue "account_code" v))
  match inst.locals.lookup "billing_info" with
  | some bi => (step1.1, step1.2.appendChild (pyToElement bi))
  | Option.none => step1

/-- `Coupon.value_for_element` (`recurly/__init__.py`, lines 278–284).  Note
`not elem` in Python is true for `None` and for a childless element, so an
empty `plan_codes` element falls back to the generic codec. -/
def couponValueForElement (elem : Element) : PyVal :=
  if elem.children.isEmpty || elem.tag ≠ "plan_codes"
      || elem.attrGet "type" ≠ some "array" then
    valueForElement elem
  else
    .list (elem.children.map (fun c =>
      match c.text with
      | some s => .str s
      | Option.none => .none))

/-- The items Python's `for code in value` iterates (the schema only ever
passes a list here; iterating a non-list would be a `TypeError`). -/
def pyItems : PyVal → List PyVal
  | .list xs => xs
  | _ => []

/-- The text stored by `code_el.text = code` (the schema only ever passes
strings). -/
def pyTextOf : PyVal → Option String
  | .str s => some s
  | _ => Option.none

/-- `Coupon.element_for_value` (`recurly/__init__.py`, lines 286–298): any
attribute other than `plan_codes` uses the generic codec; `plan_codes`
becomes an element with `type="array"` and one `plan_code` child per code,
in order. -/
def couponElementForValue (attrname : String) (v : PyVal) : Element :=
  if attrname ≠ "plan_codes" then elementForValue attrname v
  else
    .mk attrname [("type", "array")] Option.none
      ((pyItems v).map (fun code => .mk "plan_code" [] (pyTextOf code) []))

/-- An HTTP response as seen through the transport collaborator:
`status`, `getheader`-able headers, and a raw body. -/
structure HResponse where
  status : Nat
  headers : List (String × String)
  body : String := ""

/-- Python `response.getheader(name)`: the header's value or `None`. -/
def HResponse.getHeader (r : HResponse) (k : String) : Option String :=
  r.headers.lookup k

/-- The value Python stores from `response.getheader('Location')`
(a string, or `None` when the header is absent). -/
def optHeaderVal : Option String → PyVal
  | some s => .str s
  | Option.none => .none

/-- `Transaction._handle_refund_accepted` (`recurly/__init__.py`, lines
620–625): any status other than 202 raises the HTTP error for the response
(`raise_http_error`, modelled from the spec as the typed request failure for
that status); on 202 the `Location` header is stored as
`self._refund_transaction_url` and `self` is returned. -/
def handleRefundAccepted (t : Instance) (resp : HResponse) : Except PyErr Instance :=
  if resp.status ≠ 202 then .error (.httpError resp.status)
  else
    .ok { t with
      locals := dictSet t.locals "_refund_transaction_url"
        (optHeaderVal (resp.getHeader "Location")) }

/-- `Transaction.get_refund_transaction` (`recurly/__init__.py`, lines
627–642): when `self._refund_transaction_url` was never set, raise
`ValueError`; otherwise fetch the recorded URL and decode the element
(`value_for_element` — `Transaction` has no override, so the generic codec).
A recorded `None` URL (202 without a `Location` header) is set, so it skips
the `ValueError` and instead fails inside the transport call. -/
def getRefundTransaction (w : World) (t : Instance) : World × Except PyErr PyVal :=
  match t.locals.lookup "_refund_transaction_url" with
  | Option.none =>
    (w, .error (.valueError "No refund transaction is available for this transaction"))
  | some (.str url) =>
    let (w', e) := fetch w url
    (w', .ok (valueForElement e))
  | some _ => (w, .error (.typeError "cannot request a null url"))

/-- The anchor scan of `Transaction.refund` (`recurly/__init__.py`, lines
659–663): iterate the `<a>` children in order, keeping the last
`name="refund"` anchor's `href` and upper-cased `method`; a refund-named
anchor missing `href` (or `method`) raises `KeyError` at that iteration. -/
def scanAnchors : Option String × Option String → List Element →
    Except PyErr (Option String × Option String)
  | acc, [] => .ok acc
  | acc, a :: rest =>
    if a.attrGet "name" = some "refund" then
      match a.attrGet "href" with
      | Option.none => .error (.keyError "href")
      | some u =>
        match a.attrGet "method" with
        | Option.none => .error (.keyError "method")
        | some m => scanAnchors (some u, some m.toUpper) rest
    else scanAnchors acc rest

/-- Resolution of the refund action in `Transaction.refund`
(`recurly/__init__.py`, lines 644–670): no retained element raises
`AttributeError('refund')`; otherwise the `<a>` children are scanned and,
when no refund anchor set both url and method, `AttributeError('refund')` is
raised; on success the pair `(url, method)` is what `_make_actionator` binds
the action to. -/
def transactionRefundResolve (inst : Instance) : Except PyErr (String × String) :=
  match inst.elem with
  | Option.none => .error (.attributeError "refund")
  | some e =>
    match scanAnchors (Option.none, Option.none) (e.findall "a") with
    | .error err => .error err
    | .ok (some url, some m) => .ok (url, m)
    | .ok _ => .error (.attributeError "refund")

/-- `BASE_URI` (`recurly/__init__.py`, line 18). -/
def BASE_URI : String := "https://api.recurly.com/v2/"

/-- Python tuple indexing with a string subscript: a `TypeError` regardless of
the tuple's contents.  `Invoice.as_pdf` (`recurly/__init__.py`, line 403)
evaluates `self.attributes['uuid']` where `self.attributes` is the class-level
tuple of attribute names. -/
def tupleIndexStr (_t : List String) (_i : String) : Except PyErr String :=
  .error (.typeError "tuple indices must be integers, not str")

/-- A transport world returning full HTTP responses (for the PDF endpoint). -/
structure HttpWorld where
  net : String → HResponse
  fetchCount : Nat := 0

/-- One HTTP request through the transport collaborator. -/
def httpFetch (w : HttpWorld) (url : String) : HttpWorld × HResponse :=
  ({ w with fetchCount := w.fetchCount + 1 }, w.net url)

/-- `Invoice.as_pdf` (`recurly/__init__.py`, lines 398–413), translated
step by step: build the URL from `self.attributes['uuid']` (the string
subscript of the class tuple raises `TypeError` first), then a `GET` with
`Accept: application/pdf`; a non-200 status raises the HTTP error; the
`assert` demands a `Content-Type` starting with `application/pdf`
(a missing header makes `None.startswith` an `AttributeError`); on success
the raw body is returned. -/
def invoiceAsPdf (w : HttpWorld) (_inst : Instance) : HttpWorld × Except PyErr String :=
  match tupleIndexStr invoiceSchema.attributes "uuid" with
  | .error e => (w, .error e)
  | .ok uuid =>
    let url := BASE_URI ++ "invoices/" ++ uuid
    let (w', resp) := httpFetch w url
    if resp.status ≠ 200 then (w', .error (.httpError resp.status))
    else
      match resp.getHeader "Content-Type" with
      | Option.none => (w', .error (.attributeError "startswith"))
      | some ct =>
        if ct.startsWith "application/pdf" then (w', .ok resp.body)
        else (w', .error .assertionError)

/-- `objects_for_push_notification` (`recurly/__init__.py`, lines 824–841),
applied to the parsed root element (structural XML parsing is outside the
embedding): start from `{'type': root.tag}` and assign
`objects[child.tag] = Resource.value_for_element(child)` for each child in
order. -/
def objectsForPushNotification (root : Element) : List (String × PyVal) :=
  root.children.foldl (fun d c => dictSet d c.tag (valueForElement c))
    [("type", .str root.tag)]

/-- The refund-named action anchors among an element's `<a>` children (the
anchors `Transaction.refund` matches while scanning). -/
def refundAnchors (e : Element) : List Element :=
  (e.findall "a").filter (fun a => a.attrGet "name" = some "refund")

/-! ## Concrete fixtures used by witnesses and counterexamples -/

/-- An account element whose `billing_info` child is a pure link. -/
def c2AccountElem : Element :=
  .mk "account" [] Option.none
    [.mk "billing_info"
      [("href", "https://api.recurly.com/v2/accounts/a/billing_info")]
      Option.none []]

/-- The hydrated account under test for linked-attribute caching. -/
def c2Inst : Instance := fromElement c2AccountElem

/-- A transport world answering every URL with a bare billing-info element. -/
def c2World : World :=
  { net := fun _ => .mk "billing_info" [] Option.none [], fetchCount := 0 }

/-- The first `account.billing_info` access. -/
def c2First : World × Instance × Except PyErr PyVal :=
  accountGetattr c2World c2Inst "billing_info"

/-- The second `account.billing_info` access, run in the state the first
access left behind. -/
def c2Second : World × Instance × Except PyErr PyVal :=
  accountGetattr c2First.1 c2First.2.1 "billing_info"

/-- An account element carrying an `invoices` link, for the generic
(cached) resolution path. -/
def c2GenElem : Element :=
  .mk "account" [] Option.none
    [.mk "invoices" [("href", "https://api.recurly.com/v2/accounts/a/invoices")]
      Option.none []]

/-- A transport world answering with an empty typed-array element. -/
def c2GenWorld : World :=
  { net := fun _ => .mk "invoices" [("type", "array")] Option.none [],
    fetchCount := 0 }

/-- The account element of the spec's decoding example. -/
def c5AccountElem : Element :=
  .mk "account" [] Option.none
    [.mk "account_code" [] (some "acme") [],
     .mk "state" [] (some "active") []]

/-- A transaction element whose refund anchor lacks an `href` attribute. -/
def c4BadElem : Element :=
  .mk "transaction" [] Option.none
    [.mk "a" [("name", "refund"), ("method", "post")] Option.none []]

/-- The transaction hydrated from `c4BadElem`. -/
def c4BadInst : Instance := { elem := some c4BadElem, locals := [] }

/-- A transaction element advertising a complete refund action anchor. -/
def c4GoodElem : Element :=
  .mk "transaction" [] Option.none
    [.mk "a" [("name", "refund"), ("href", "https://api/x/refund"),
      ("method", "post")] Option.none []]

/-- The transaction hydrated from `c4GoodElem`. -/
def c4GoodInst : Instance := { elem := some c4GoodElem, locals := [] }

/-- A push notification whose only child element is tagged `type`. -/
def c7BadRoot : Element :=
  .mk "new_account_notification" [] Option.none
    [.mk "type" [] (some "intruder") []]

/-- A push notification with two distinct, `type`-free child tags. -/
def c7GoodRoot : Element :=
  .mk "new_subscription_notification" [] Option.none
    [.mk "account" [] Option.none [],
     .mk "transaction" [] Option.none []]

/-- A hydrated transaction with no recorded refund URL. -/
def c3Trans : Instance :=
  { elem := some (.mk "transaction" [] Option.none []), locals := [] }

/-- A 202-Accepted refund response carrying a `Location` header. -/
def c3Resp202 : HResponse :=
  { status := 202,
    headers := [("Location", "https://api.recurly.com/v2/transactions/rt")] }

/-- A failing refund response. -/
def c3Resp400 : HResponse := { status := 400, headers := [] }

/-- A transport world answering with a bare transaction element. -/
def c3World : World :=
  { net := fun _ => .mk "transaction" [] Option.none [], fetchCount := 0 }

/-- Billing info whose retained element holds a masked card number. -/
def c1Elem1 : Element :=
  .mk "billing_info" [("type", "credit_card")] Option.none
    [.mk "number" [] (some "4111111111111111") [],
     .mk "last_four" [] (some "1111") []]

/-- The same retained billing-info element with a different card number. -/
def c1Elem2 : Element :=
  .mk "billing_info" [("type", "credit_card")] Option.none
    [.mk "number" [] (some "5555555555554444") [],
     .mk "last_four" [] (some "1111") []]

/-- A billing-info instance with a locally assigned card number. -/
def c1Inst : Instance :=
  { elem := some c1Elem1,
    locals := [("number", .str "4111111111111111"), ("first_name", .str "Verena")] }

/-- A retained transaction element holding a masked card number among its
children (`Transaction` also declares `number` sensitive). -/
def c1TransElem1 : Element :=
  .mk "transaction" [("type", "credit_card")] Option.none
    [.mk "number" [] (some "4111111111111111") [],
     .mk "status" [] (some "success") []]

/-- The same retained transaction element with a different card number. -/
def c1TransElem2 : Element :=
  .mk "transaction" [("type", "credit_card")] Option.none
    [.mk "number" [] (some "5555555555554444") [],
     .mk "status" [] (some "success") []]

/-- An invoice instance with a perfectly good local `uuid`. -/
def c8Invoice : Instance :=
  { elem := Option.none, locals := [("uuid", .str "abcd1234")] }

/-- A transport world that would happily serve the PDF. -/
def c8World : HttpWorld :=
  { net := fun _ =>
      { status := 200, headers := [("Content-Type", "application/pdf")],
        body := "%PDF-1.4" },
    fetchCount := 0 }

/-- An account hydrated from an element (so `account_code` is only
recoverable from the retained element) with billing info assigned locally. -/
def c10Inst : Instance :=
  { elem := some (.mk "account" [] Option.none
      [.mk "account_code" [] (some "acme") []]),
    locals := [("billing_info",
      .res "billing_info" Option.none [("number", .str "4111111111111111")])] }

/-- A transport world for the serialization fixtures (never consulted). -/
def c10World : World :=
  { net := fun _ => .mk "account" [] Option.none [], fetchCount := 0 }

/-! ## Helper lemmas -/

@[simp] theorem Element.tag_mk (t : String) (a : List (String × String))
    (x : Option String) (c : List Element) : (Element.mk t a x c).tag = t := rfl

@[simp] theorem Element.attrib_mk (t : String) (a : List (String × String))
    (x : Option String) (c : List Element) : (Element.mk t a x c).attrib = a := rfl

@[simp] theorem Element.text_mk (t : String) (a : List (String × String))
    (x : Option String) (c : List Element) : (Element.mk t a x c).text = x := rfl

@[simp] theorem Element.children_mk (t : String) (a : List (String × String))
    (x : Option String) (c : List Element) : (Element.mk t a x c).children = c := rfl

@[simp] theorem Element.appendChild_children (e : Element) (c : Element) :
    (e.appendChild c).children = e.children ++ [c] := rfl

/-- The generic codec always tags its output with the field name. -/
@[simp] theorem elementForValue_tag (name : String) (v : PyVal) :
    (elementForValue name v).tag = name := by
  cases v <;> rfl

@[simp] theorem lookup_dictSet_self (d : List (String × PyVal)) (k : String) (v : PyVal) :
    (dictSet d k v).lookup k = some v := by
  induction d with
  | nil => simp [dictSet]
  | cons p rest ih =>
    obtain ⟨k₀, v₀⟩ := p
    by_cases h : k₀ = k
    · subst h
      simp [dictSet]
    · have hb : (k == k₀) = false := beq_eq_false_iff_ne.mpr (fun hh => h hh.symm)
      simp [dictSet, h, List.lookup, hb, ih]

theorem lookup_dictSet_ne (d : List (String × PyVal)) (k k' : String) (v : PyVal)
    (h : k' ≠ k) : (dictSet d k v).lookup k' = d.lookup k' := by
  have hb : (k' == k) = false := beq_eq_false_iff_ne.mpr h
  induction d with
  | nil => simp [dictSet, List.lookup, hb]
  | cons p rest ih =>
    obtain ⟨k₀, v₀⟩ := p
    by_cases hk : k₀ = k
    · subst hk
      simp [dictSet, List.lookup, hb]
    · simp [dictSet, hk, List.lookup, ih]

/-- Searching may be restricted to a filtered list when the filter keeps
everything the search predicate accepts. -/
theorem find?_eq_find?_filter {α : Type} (p q : α → Bool) (l : List α)
    (hpq : ∀ x, q x = true → p x = true) : l.find? q = (l.filter p).find? q := by
  induction l with
  | nil => rfl
  | cons x xs ih =>
    cases hq : q x with
    | true =>
      rw [List.find?_cons_of_pos _ hq, List.filter_cons_of_pos (hpq x hq),
        List.find?_cons_of_pos _ hq]
    | false =>
      cases hp : p x with
      | true =>
        rw [List.find?_cons_of_neg _ (by simp [hq]), List.filter_cons_of_pos hp,
          List.find?_cons_of_neg _ (by simp [hq]), ih]
      | false =>
        rw [List.find?_cons_of_neg _ (by simp [hq]), List.filter_cons_of_neg (by simp [hp]),
          ih]

/-- Two lists with the same filtered residue agree on any search whose
predicate only accepts kept entries. -/
theorem find?_congr_of_filter_eq {α : Type} (p q : α → Bool) (l₁ l₂ : List α)
    (hpq : ∀ x, q x = true → p x = true) (h : l₁.filter p = l₂.filter p) :
    l₁.find? q = l₂.find? q := by
  rw [find?_eq_find?_filter p q l₁ hpq, find?_eq_find?_filter p q l₂ hpq, h]

/-- A key every one of whose bindings the filter drops is absent afterwards. -/
theorem lookup_filter_eq_none (l : List (String × PyVal)) (p : String × PyVal → Bool)
    (k : String) (h : ∀ v, p (k, v) = false) : (l.filter p).lookup k = Option.none := by
  induction l with
  | nil => rfl
  | cons x xs ih =>
    obtain ⟨k₀, v₀⟩ := x
    by_cases hk : k₀ = k
    · subst hk
      simp [List.filter_cons, h v₀, ih]
    · have hb : (k == k₀) = false := beq_eq_false_iff_ne.mpr (fun hh => hk hh.symm)
      cases hp : p (k₀, v₀) with
      | true => simp [List.filter_cons, hp, List.lookup, hb, ih]
      | false => simp [List.filter_cons, hp, ih]

/-- Folding dictionary assignments for children whose tags all differ from
`k` leaves the binding of `k` unchanged. -/
theorem lookup_foldl_dictSet_of_notmem (cs : List Element)
    (d : List (String × PyVal)) (k : String) (h : ∀ c ∈ cs, c.tag ≠ k) :
    (cs.foldl (fun d c => dictSet d c.tag (valueForElement c)) d).lookup k
      = d.lookup k := by
  induction cs generalizing d with
  | nil => rfl
  | cons c rest ih =>
    rw [List.foldl_cons, ih _ (fun c' hc' => h c' (List.mem_cons_of_mem _ hc')),
      lookup_dictSet_ne _ _ _ _ (fun hk => h c (List.mem_cons_self _ _) hk.symm)]

/-- With pairwise distinct child tags, the fold binds each child's tag to
that child's decoded value. -/
theorem lookup_foldl_dictSet_of_mem (cs : List Element)
    (d : List (String × PyVal)) (c : Element) (hc : c ∈ cs)
    (hnd : (cs.map Element.tag).Nodup) :
    (cs.foldl (fun d c => dictSet d c.tag (valueForElement c)) d).lookup c.tag
      = some (valueForElement c) := by
  induction cs generalizing d with
  | nil => cases hc
  | cons x rest ih =>
    rw [List.map_cons, List.nodup_cons] at hnd
    obtain ⟨hx, hrest⟩ := hnd
    rcases List.mem_cons.mp hc with hcx | hcr
    · subst hcx
      rw [List.foldl_cons,
        lookup_foldl_dictSet_of_notmem rest _ c.tag
          (fun c' hc' hteq => hx (hteq ▸ List.mem_map_of_mem Element.tag hc')),
        lookup_dictSet_self]
    · rw [List.foldl_cons]
      exact ih _ hcr hrest

/-- The anchor scan of `Transaction.refund`, assuming every refund-named
anchor carries `href` and `method`: the accumulator ends at the last
refund-named anchor's `href` and upper-cased `method` (or stays put when
there is none). -/
theorem scanAnchors_spec (l : List Element) (acc : Option String × Option String)
    (H : ∀ a ∈ l.filter (fun a => a.attrGet "name" = some "refund"),
      (a.attrGet "href").isSome ∧ (a.attrGet "method").isSome) :
    scanAnchors acc l = .ok
      (match (l.filter (fun a => a.attrGet "name" = some "refund")).getLast? with
        | Option.none => acc
        | some a => (a.attrGet "href", (a.attrGet "method").map String.toUpper)) := by
  induction l generalizing acc with
  | nil => rfl
  | cons a rest ih =>
    by_cases hname : a.attrGet "name" = some "refund"
    · have hmem : a ∈ (a :: rest).filter (fun a => a.attrGet "name" = some "refund") := by
        rw [List.filter_cons_of_pos (by simp [hname])]
        exact List.mem_cons_self _ _
      obtain ⟨hu, hm⟩ := H a hmem
      obtain ⟨u, hu'⟩ := Option.isSome_iff_exists.mp hu
      obtain ⟨m, hm'⟩ := Option.isSome_iff_exists.mp hm
      have hstep : scanAnchors acc (a :: rest)
          = scanAnchors (some u, some m.toUpper) rest := by
        simp [scanAnchors, hname, hu', hm']
      have Hrest : ∀ b ∈ rest.filter (fun a => a.attrGet "name" = some "refund"),
          (b.attrGet "href").isSome ∧ (b.attrGet "method").isSome := by
        intro b hb
        refine H b ?_
        rw [List.filter_cons_of_pos (by simp [hname])]
        exact List.mem_cons_of_mem _ hb
      rw [hstep, ih _ Hrest, List.filter_cons_of_pos (by simp [hname])]
      cases hfr : rest.filter (fun a => a.attrGet "name" = some "refund") with
      | nil => simp [hu', hm']
      | cons b t =>
        have h1 : ((b :: t).getLast?).isSome := List.getLast?_isSome.mpr (by simp)
        obtain ⟨x, hx⟩ := Option.isSome_iff_exists.mp h1
        simp [List.getLast?_cons_cons, hx]
    · have hstep : scanAnchors acc (a :: rest) = scanAnchors acc rest := by
        simp [scanAnchors, hname]
      have Hrest : ∀ b ∈ rest.filter (fun a => a.attrGet "name" = some "refund"),
          (b.attrGet "href").isSome ∧ (b.attrGet "method").isSome := by
        intro b hb
        refine H b ?_
        rw [List.filter_cons_of_neg (by simp [hname])]
        exact hb
      rw [hstep, ih _ Hrest, List.filter_cons_of_neg (by simp [hname])]

/-- A serialized field child is always tagged with its attribute's name. -/
theorem serializeField_tag (sch : Schema) (inst : Instance) (full : Bool)
    (a : String) (c : Element) (h : serializeField sch inst full a = some c) :
    c.tag = a := by
  rw [serializeField] at h
  by_cases hx : sch.xmlAttrAttrs.contains a = true
  · rw [if_pos hx] at h
    exact Option.noConfusion h
  · rw [if_neg hx] at h
    cases hl : inst.locals.lookup a with
    | some v =>
      rw [hl] at h
      injection h with h1
      rw [← h1, elementForValue_tag]
    | none =>
      rw [hl] at h
      by_cases hf : (full && !(sch.sensitive.contains a)) = true
      · rw [if_pos hf] at h
        obtain ⟨c0, _, hc1⟩ := Option.map_eq_some'.mp h
        rw [← hc1, elementForValue_tag]
      · rw [if_neg hf] at h
        exact Option.noConfusion h

/-- A sensitive attribute not locally assigned serializes to nothing — even
under `full`, it is never recovered from the retained element. -/
theorem serializeField_sensitive_none (sch : Schema) (inst : Instance)
    (full : Bool) (a : String) (hs : sch.sensitive.contains a = true)
    (hl : inst.locals.lookup a = Option.none) :
    serializeField sch inst full a = Option.none := by
  rw [serializeField]
  have hmem : a ∈ sch.sensitive := by simpa using hs
  by_cases hx : sch.xmlAttrAttrs.contains a = true
  · rw [if_pos hx]
  · rw [if_neg hx, hl, if_neg (by simp [hmem])]

/-- A locally assigned attribute outside the XML-attribute set serializes to
its encoded local value. -/
theorem serializeField_of_lookup_some (sch : Schema) (inst : Instance)
    (full : Bool) (a : String) (v : PyVal)
    (hx : sch.xmlAttrAttrs.contains a = false)
    (hl : inst.locals.lookup a = some v) :
    serializeField sch inst full a = some (elementForValue a v) := by
  have hnmem : a ∉ sch.xmlAttrAttrs := by simpa using hx
  rw [serializeField, if_neg (by simp [hnmem]), hl]

/-! ## Claims -/

/-- C5: decoding
`<account><account_code>acme</account_code><state>active</state></account>`
yields an instance where attribute access returns `"acme"` for
`account_code` and `"active"` for `state`, while `email` — declared but
absent from the element — raises the no-such-attribute condition rather
than returning a null value (and no access touches the transport). -/
theorem c5_account_decoding_example (w : World) :
    (accountGetattr w (fromElement c5AccountElem) "account_code").2.2
        = .ok (.str "acme")
    ∧ (accountGetattr w (fromElement c5AccountElem) "state").2.2
        = .ok (.str "active")
    ∧ (accountGetattr w (fromElement c5AccountElem) "email").2.2
        = .error (.attributeError "email") :=
  ⟨rfl, rfl, rfl⟩

/-- C6: for every list of plan-code strings,
`Coupon.element_for_value('plan_codes', codes)` produces an element tagged
`plan_codes` with `type="array"` and one `plan_code` child per code in
order, and `Coupon.value_for_element` maps it back to the original list —
including the empty list, which Python's falsy empty element routes through
the generic array codec with the same result. -/
theorem c6_plan_codes_roundtrip (codes : List String) :
    couponElementForValue "plan_codes" (.list (codes.map PyVal.str))
        = Element.mk "plan_codes" [("type", "array")] Option.none
            (codes.map (fun c => Element.mk "plan_code" [] (some c) []))
    ∧ couponValueForElement
          (couponElementForValue "plan_codes" (.list (codes.map PyVal.str)))
        = .list (codes.map PyVal.str) := by
  have henc : couponElementForValue "plan_codes" (.list (codes.map PyVal.str))
      = Element.mk "plan_codes" [("type", "array")] Option.none
          (codes.map (fun c => Element.mk "plan_code" [] (some c) [])) := by
    simp [couponElementForValue, pyItems, List.map_map]
    intro a _
    rfl
  refine ⟨henc, ?_⟩
  rw [henc]
  cases codes with
  | nil => rfl
  | cons c cs =>
    have hdec : ∀ l : List String,
        (l.map (fun c => Element.mk "plan_code" [] (some c) [])).map
            (fun ce => match ce.text with
              | some s => PyVal.str s
              | Option.none => PyVal.none)
          = l.map PyVal.str := by
      intro l
      induction l with
      | nil => rfl
      | cons x xs ih => simp_all
    simp only [couponValueForElement]
    rw [if_neg (by simp [Element.attrGet])]
    simp only [Element.children_mk]
    rw [hdec]

/-- C8 (code bug): `Invoice.as_pdf` is specified to fetch the PDF, treat a
non-200 as an HTTP error and a non-`application/pdf` content type as a
protocol error — but the code indexes the class-level `attributes` tuple
with the string `'uuid'`, so on a fully well-formed invoice and a server
ready to serve the PDF it raises `TypeError` before any request is made. -/
theorem c8_as_pdf_never_reaches_http :
    (invoiceAsPdf c8World c8Invoice).2
        = .error (.typeError "tuple indices must be integers, not str")
    ∧ (invoiceAsPdf c8World c8Invoice).1.fetchCount = 0 :=
  ⟨rfl, rfl⟩

/-- C9: for every invoice instance and transport state, `as_pdf` raises a
`TypeError` while building the request URL (`self.attributes['uuid']`
indexes the class attribute tuple with a string) and issues no HTTP
request. -/
theorem c9_as_pdf_always_type_error (w : HttpWorld) (inst : Instance) :
    (invoiceAsPdf w inst).2
        = .error (.typeError "tuple indices must be integers, not str")
    ∧ (invoiceAsPdf w inst).1.fetchCount = w.fetchCount :=
  ⟨rfl, rfl⟩

/-- C3: the refund action handler treats exactly 202-Accepted as success —
returning the transaction itself with the response's `Location` header
recorded as the follow-up URL — and raises the HTTP error for any other
status; `get_refund_transaction` raises the "no refund transaction is
available" error when no follow-up URL was ever recorded, and otherwise
fetches the recorded URL and decodes the response element. -/
theorem c3_refund_follow_up (t : Instance) (resp : HResponse) (w : World) (u : String) :
    (resp.status = 202 → handleRefundAccepted t resp = .ok { t with
        locals := dictSet t.locals "_refund_transaction_url"
          (optHeaderVal (resp.getHeader "Location")) })
    ∧ (resp.status ≠ 202 →
        handleRefundAccepted t resp = .error (.httpError resp.status))
    ∧ (t.locals.lookup "_refund_transaction_url" = Option.none →
        getRefundTransaction w t = (w, .error (.valueError
          "No refund transaction is available for this transaction")))
    ∧ (t.locals.lookup "_refund_transaction_url" = some (.str u) →
        getRefundTransaction w t = ({ w with fetchCount := w.fetchCount + 1 },
          .ok (valueForElement (w.net u))))
    ∧ (resp.status = 202 → resp.getHeader "Location" = some u →
        ∀ t', handleRefundAccepted t resp = .ok t' →
          getRefundTransaction w t' = ({ w with fetchCount := w.fetchCount + 1 },
            .ok (valueForElement (w.net u)))) := by
  refine ⟨?_, ?_, ?_, ?_, ?_⟩
  · intro h
    simp [handleRefundAccepted, h]
  · intro h
    simp [handleRefundAccepted, h]
  · intro h
    simp [getRefundTransaction, h]
  · intro h
    simp [getRefundTransaction, h, fetch]
  · intro h hloc t' ht'
    have hte : t' = { t with
        locals := dictSet t.locals "_refund_transaction_url"
          (optHeaderVal (resp.getHeader "Location")) } := by
      rw [handleRefundAccepted, if_neg (by simp [h])] at ht'
      exact (Except.ok.inj ht').symm
    subst hte
    simp [getRefundTransaction, lookup_dictSet_self, hloc, optHeaderVal, fetch]

/-- C3 witness: a concrete 202 response with a `Location` header records the
follow-up URL; a 400 raises its HTTP error; a transaction with nothing
recorded raises the `ValueError`; a recorded URL is fetched and decoded. -/
theorem c3_refund_follow_up_witness :
    handleRefundAccepted c3Trans c3Resp202
        = .ok { c3Trans with locals := [("_refund_transaction_url",
            .str "https://api.recurly.com/v2/transactions/rt")] }
    ∧ handleRefundAccepted c3Trans c3Resp400 = .error (.httpError 400)
    ∧ getRefundTransaction c3World c3Trans
        = (c3World, .error (.valueError
            "No refund transaction is available for this transaction"))
    ∧ getRefundTransaction c3World
          { c3Trans with locals := [("_refund_transaction_url",
            .str "https://api.recurly.com/v2/transactions/rt")] }
        = ({ c3World with fetchCount := 1 },
            .ok (.res "transaction" (some (.mk "transaction" [] Option.none [])) []))
    ∧ getRefundTransaction c3World
          { c3Trans with locals := [("_refund_transaction_url",
            .str "https://api.recurly.com/v2/transactions/rt2")] }
        = ({ c3World with fetchCount := 1 },
            .ok (.res "transaction" (some (.mk "transaction" [] Option.none [])) [])) := by
  refine ⟨?_, ?_, ?_, ?_, ?_⟩
  · exact (c3_refund_follow_up c3Trans c3Resp202 c3World "x").1 rfl
  · exact (c3_refund_follow_up c3Trans c3Resp400 c3World "x").2.1 (by decide)
  · exact (c3_refund_follow_up c3Trans c3Resp400 c3World "x").2.2.1 rfl
  · exact (c3_refund_follow_up c3Trans c3Resp202 c3World
      "https://api.recurly.com/v2/transactions/rt").2.2.2.2 rfl rfl _ rfl
  · exact (c3_refund_follow_up
      { c3Trans with locals := [("_refund_transaction_url",
        .str "https://api.recurly.com/v2/transactions/rt2")] }
      c3Resp202 c3World "https://api.recurly.com/v2/transactions/rt2").2.2.2.1 rfl

/-- C4 (counterexample): a transaction element with a refund-named anchor
that carries `method` but no `href` contains no anchor with both `href` and
`method`, yet `refund()` raises `KeyError('href')` there — not the
unsupported-action `AttributeError('refund')` the claim requires for every
element without a fully equipped refund anchor. -/
theorem c4_counterexample :
    (refundAnchors c4BadElem).all
        (fun a => !((a.attrGet "href").isSome && (a.attrGet "method").isSome)) = true
    ∧ transactionRefundResolve c4BadInst = .error (.keyError "href")
    ∧ transactionRefundResolve c4BadInst ≠ .error (.attributeError "refund") := by
  refine ⟨rfl, rfl, ?_⟩
  intro h
  rw [show transactionRefundResolve c4BadInst = .error (.keyError "href") from rfl] at h
  injection h with h1
  exact absurd h1 (by decide)

/-- C4 (amended): provided every refund-named anchor carries both `href` and
`method`, `refund()` resolves exactly when such an anchor exists — binding
the action to the last refund anchor's `href` and upper-cased `method` —
and raises the unsupported-action `AttributeError('refund')` when no
refund-named anchor exists or the transaction has no retained element; a
refund-named anchor missing `href` or `method` instead raises a `KeyError`
(shown by the counterexample). -/
theorem c4_refund_resolution (inst : Instance) :
    (inst.elem = Option.none →
      transactionRefundResolve inst = .error (.attributeError "refund"))
    ∧ (∀ e, inst.elem = some e →
        (∀ a ∈ refundAnchors e,
          (a.attrGet "href").isSome ∧ (a.attrGet "method").isSome) →
        ((refundAnchors e = [] →
            transactionRefundResolve inst = .error (.attributeError "refund"))
          ∧ (∀ a u m, (refundAnchors e).getLast? = some a →
              a.attrGet "href" = some u → a.attrGet "method" = some m →
              transactionRefundResolve inst = .ok (u, m.toUpper)))) := by
  constructor
  · intro h
    rw [transactionRefundResolve, h]
  · intro e he H
    have hscan := scanAnchors_spec (e.findall "a") (Option.none, Option.none) H
    constructor
    · intro hempty
      simp only [transactionRefundResolve, he]
      rw [hscan]
      rw [refundAnchors] at hempty
      rw [hempty]
      rfl
    · intro a u m hlast hu hm
      simp only [transactionRefundResolve, he]
      rw [hscan]
      rw [refundAnchors] at hlast
      rw [hlast]
      simp [hu, hm]

/-- C4 witness: a transaction element advertising
`<a name="refund" href="https://api/x/refund" method="post"/>` resolves the
refund action to that `href` and the upper-cased method. -/
theorem c4_refund_resolution_witness :
    transactionRefundResolve c4GoodInst = .ok ("https://api/x/refund", "post".toUpper) :=
  ((c4_refund_resolution c4GoodInst).2 c4GoodElem rfl (by decide)).2
    (Element.mk "a" [("name", "refund"), ("href", "https://api/x/refund"),
      ("method", "post")] Option.none [])
    "https://api/x/refund" "post" rfl rfl rfl

/-- C7 (counterexample): a well-formed push-notification document whose only
child is tagged `type` — the child's decoded value overwrites the `'type'`
entry, so the returned mapping's `'type'` key no longer holds the root
element's tag as the claim requires for every well-formed document. -/
theorem c7_type_child_counterexample :
    (objectsForPushNotification c7BadRoot).lookup "type"
      ≠ some (.str "new_account_notification") := by
  intro h
  rw [show (objectsForPushNotification c7BadRoot).lookup "type"
      = some (.str "intruder") from rfl] at h
  injection h with h1
  injection h1 with h2
  exact absurd h2 (by decide)

/-- C7 (amended): for a push-notification document none of whose children is
tagged `type` and whose child tags are pairwise distinct,
`objects_for_push_notification` returns a mapping whose `'type'` key holds
the root tag and which maps each child's tag to that child decoded through
the type registry. -/
theorem c7_push_notification_decoding (root : Element)
    (hty : ∀ c ∈ root.children, c.tag ≠ "type")
    (hnd : (root.children.map Element.tag).Nodup) :
    (objectsForPushNotification root).lookup "type" = some (.str root.tag)
    ∧ ∀ c ∈ root.children,
        (objectsForPushNotification root).lookup c.tag
          = some (valueForElement c) := by
  constructor
  · rw [objectsForPushNotification, lookup_foldl_dictSet_of_notmem _ _ _ hty]
    rfl
  · intro c hc
    rw [objectsForPushNotification]
    exact lookup_foldl_dictSet_of_mem _ _ _ hc hnd

/-- C7 witness: a two-child notification decodes to the event kind plus one
registry-decoded entry per child tag. -/
theorem c7_push_notification_decoding_witness :
    (objectsForPushNotification c7GoodRoot).lookup "type"
        = some (.str "new_subscription_notification")
    ∧ (objectsForPushNotification c7GoodRoot).lookup "account"
        = some (valueForElement (.mk "account" [] Option.none []))
    ∧ (objectsForPushNotification c7GoodRoot).lookup "transaction"
        = some (valueForElement (.mk "transaction" [] Option.none [])) := by
  obtain ⟨h1, h2⟩ := c7_push_notification_decoding c7GoodRoot (by decide) (by decide)
  exact ⟨h1, h2 _ (List.mem_cons_self _ _),
    h2 _ (List.mem_cons_of_mem _ (List.mem_cons_self _ _))⟩

/-- C2 (counterexample): on an account whose retained element links
`billing_info`, the first access fetches once and caches nothing
(`Account.__getattr__` returns the fresh `BillingInfo` without storing it
in `self.__dict__`), so the second access fetches again — the claim's
"second access issues no second HTTP fetch" fails for `billing_info`. -/
theorem c2_billing_info_refetch_counterexample :
    c2First.2.1.locals = [] ∧ c2First.1.fetchCount = 1
    ∧ c2Second.1.fetchCount = 2
    ∧ c2Second.1.fetchCount ≠ c2First.1.fetchCount :=
  ⟨rfl, rfl, rfl, by decide⟩

/-- C2 (amended): a linked attribute resolved through the generic resolver
is cached as a local assignment, so repeating the access returns the same
result without touching the transport again, and `update_from_element`
clears that cache; `Account`'s `billing_info` is the exception — its
override fetches on every access of the unassigned attribute and never
caches. -/
theorem c2_linked_caching :
    (∀ (sch : Schema) (w : World) (inst : Instance) (name : String)
        (w' : World) (i' : Instance) (v : PyVal),
      resourceGetattr sch w inst name = (w', i', .ok v) →
      resourceGetattr sch w' i' name = (w', i', .ok v))
    ∧ (∀ (sch : Schema) (inst : Instance) (e : Element) (name : String),
        sch.linked.contains name = true →
        (updateFromElement sch inst e).locals.lookup name = Option.none)
    ∧ (∀ (w : World) (inst : Instance) (url : String),
        inst.locals.lookup "billing_info" = Option.none →
        (inst.elem.bind (fun e => e.find "billing_info")).bind
            (fun c => c.attrGet "href") = some url →
        accountGetattr w inst "billing_info"
          = ({ w with fetchCount := w.fetchCount + 1 }, inst,
              .ok (.res "billing_info" (some (w.net url)) []))) := by
  refine ⟨?_, ?_, ?_⟩
  · intro sch w inst name w' i' v h
    cases hl : inst.locals.lookup name with
    | some v0 =>
      rw [resourceGetattr, hl] at h
      injection h with h1 h2
      injection h2 with h3 h4
      injection h4 with h5
      subst h1 h3 h5
      rw [resourceGetattr, hl]
    | none =>
      by_cases hmem : name ∈ sch.linked
      · cases hhref : (inst.elem.bind (fun e => e.find name)).bind
            (fun c => c.attrGet "href") with
        | some url =>
          rw [resourceGetattr, hl, if_pos hmem, hhref] at h
          injection h with h1 h2
          injection h2 with h3 h4
          injection h4 with h5
          subst h1 h3 h5
          simp [resourceGetattr, fetch]
        | none =>
          rw [resourceGetattr, hl, if_pos hmem, hhref] at h
          injection h with h1 h2
          injection h2 with h3 h4
          exact Except.noConfusion h4
      · cases hfind : inst.elem.bind (fun e => e.find name) with
        | some c =>
          rw [resourceGetattr, hl, if_neg hmem, hfind] at h
          injection h with h1 h2
          injection h2 with h3 h4
          injection h4 with h5
          subst h1 h3 h5
          rw [resourceGetattr, hl, if_neg hmem, hfind]
        | none =>
          rw [resourceGetattr, hl, if_neg hmem, hfind] at h
          injection h with h1 h2
          injection h2 with h3 h4
          exact Except.noConfusion h4
  · intro sch inst e name h
    simp only [updateFromElement]
    exact lookup_filter_eq_none _ _ _ (fun v => by simpa using h)
  · intro w inst url h1 h2
    simp [accountGetattr, h1, h2, fetch]

/-- C2 witness: re-reading a cached `invoices` resolution returns the cached
value with no further fetch; `update_from_element` drops the cached entry;
accessing the unassigned `billing_info` fetches (again) each time. -/
theorem c2_linked_caching_witness :
    resourceGetattr accountSchema { c2GenWorld with fetchCount := 1 }
        { elem := some c2GenElem, locals := [("invoices", .list [])] } "invoices"
      = ({ c2GenWorld with fetchCount := 1 },
          { elem := some c2GenElem, locals := [("invoices", .list [])] },
          .ok (.list []))
    ∧ (updateFromElement accountSchema
          { elem := some c2GenElem, locals := [("invoices", .list [])] }
          c2GenElem).locals.lookup "invoices" = Option.none
    ∧ accountGetattr c2World c2Inst "billing_info"
        = ({ c2World with fetchCount := 1 }, c2Inst,
            .ok (.res "billing_info"
              (some (.mk "billing_info" [] Option.none [])) [])) := by
  refine ⟨?_, ?_, ?_⟩
  · exact c2_linked_caching.1 accountSchema c2GenWorld (fromElement c2GenElem)
      "invoices" _ _ _ rfl
  · exact c2_linked_caching.2.1 accountSchema
      { elem := some c2GenElem, locals := [("invoices", .list [])] }
      c2GenElem "invoices" (by decide)
  · exact c2_linked_caching.2.2 c2World c2Inst
      "https://api.recurly.com/v2/accounts/a/billing_info" rfl rfl

/-- C1: for every entity schema and instance, `to_element` output contains a
child tagged with a sensitive attribute only when that attribute is
explicitly locally assigned, and two retained elements that differ only in
their sensitive-attribute children (same tag, XML attributes, text, and
non-sensitive children) serialize identically — a sensitive value present
only in the server-sourced element never reaches the output.  For
`BillingInfo` (the one schema declaring its sensitive attributes among its
serialized attributes) the converse also holds: a locally assigned
sensitive attribute does appear in the output. -/
theorem c1_sensitive_serialization :
    (∀ (sch : Schema) (inst : Instance) (full : Bool) (a : String),
      a ∈ sch.sensitive →
      (∃ c ∈ (toElement sch inst full).children, c.tag = a) →
      (inst.locals.lookup a).isSome = true)
    ∧ (∀ (sch : Schema) (inst : Instance) (full : Bool) (e₁ e₂ : Element),
        e₁.tag = e₂.tag → e₁.attrib = e₂.attrib → e₁.text = e₂.text →
        e₁.children.filter (fun c => !(sch.sensitive.contains c.tag))
          = e₂.children.filter (fun c => !(sch.sensitive.contains c.tag)) →
        toElement sch { elem := some e₁, locals := inst.locals } full
          = toElement sch { elem := some e₂, locals := inst.locals } full)
    ∧ (∀ (inst : Instance) (full : Bool) (a : String),
        a ∈ billingInfoSchema.sensitive →
        (inst.locals.lookup a).isSome = true →
        ∃ c ∈ (toElement billingInfoSchema inst full).children, c.tag = a) := by
  refine ⟨?_, ?_, ?_⟩
  · rintro sch inst full a ha ⟨c, hc, htagc⟩
    have hs : sch.sensitive.contains a = true := by simpa using ha
    rw [toElement, Element.children_mk] at hc
    obtain ⟨a', _, hfa'⟩ := List.mem_filterMap.mp hc
    have htc : c.tag = a' := serializeField_tag _ _ _ _ _ hfa'
    have haa : a' = a := htc.symm.trans htagc
    subst haa
    by_contra hns
    have hl : inst.locals.lookup a' = Option.none := by
      cases hll : inst.locals.lookup a' with
      | some v => simp [hll] at hns
      | none => rfl
    rw [serializeField_sensitive_none _ _ _ _ hs hl] at hfa'
    exact Option.noConfusion hfa'
  · intro sch inst full e₁ e₂ _ hattr _ hfilter
    rw [toElement, toElement]
    congr 1
    · refine List.filterMap_congr (fun a _ => ?_)
      rw [serializeXmlAttr, serializeXmlAttr]
      cases hl : inst.locals.lookup a with
      | some v => rfl
      | none => simp [Element.attrGet, hattr]
    · refine List.filterMap_congr (fun a _ => ?_)
      rw [serializeField, serializeField]
      by_cases hxa : sch.xmlAttrAttrs.contains a = true
      · rw [if_pos hxa, if_pos hxa]
      · rw [if_neg hxa, if_neg hxa]
        cases hl : inst.locals.lookup a with
        | some v => rfl
        | none =>
          by_cases hf : (full && !(sch.sensitive.contains a)) = true
          · rw [if_pos hf, if_pos hf]
            have hcont : sch.sensitive.contains a = false := by
              rcases Bool.and_eq_true .. |>.mp hf with ⟨_, hne⟩
              simpa using hne
            have hfind : e₁.find a = e₂.find a := by
              rw [Element.find, Element.find]
              refine find?_congr_of_filter_eq _ _ _ _ (fun x hx' => ?_) hfilter
              have hta : x.tag = a := of_decide_eq_true hx'
              rw [hta, hcont]
              rfl
            simp [hfind]
          · rw [if_neg hf, if_neg hf]
  · intro inst full a ha hsome
    have hcase : a = "number" ∨ a = "verification_value" := by
      simpa [billingInfoSchema] using ha
    have hattr : a ∈ billingInfoSchema.attributes := by
      rcases hcase with h | h <;> subst h <;> decide
    have hx : billingInfoSchema.xmlAttrAttrs.contains a = false := by
      rcases hcase with h | h <;> subst h <;> decide
    obtain ⟨v, hv⟩ := Option.isSome_iff_exists.mp hsome
    refine ⟨elementForValue a v, ?_, by simp⟩
    rw [toElement, Element.children_mk]
    exact List.mem_filterMap.mpr ⟨a, hattr,
      serializeField_of_lookup_some _ _ _ _ _ hx hv⟩

/-- C1 witness: a billing-info output containing a `number` child has the
number locally assigned (fed by the converse conjunct); two retained
transaction elements and two retained billing-info elements differing only
in their masked `number` child serialize identically under their own
schemas. -/
theorem c1_sensitive_serialization_witness :
    (c1Inst.locals.lookup "number").isSome = true
    ∧ toElement transactionSchema { elem := some c1TransElem1, locals := [] } true
        = toElement transactionSchema { elem := some c1TransElem2, locals := [] }
            true
    ∧ (∃ c ∈ (toElement billingInfoSchema c1Inst true).children, c.tag = "number")
    ∧ toElement billingInfoSchema { elem := some c1Elem1, locals := c1Inst.locals }
          true
        = toElement billingInfoSchema
            { elem := some c1Elem2, locals := c1Inst.locals } true := by
  refine ⟨?_, ?_, ?_, ?_⟩
  · exact c1_sensitive_serialization.1 billingInfoSchema c1Inst true "number"
      (by decide)
      (c1_sensitive_serialization.2.2 c1Inst true "number" (by decide) rfl)
  · exact c1_sensitive_serialization.2.1 transactionSchema
      { elem := Option.none, locals := [] } true c1TransElem1 c1TransElem2
      rfl rfl rfl rfl
  · exact c1_sensitive_serialization.2.2 c1Inst true "number" (by decide) rfl
  · exact c1_sensitive_serialization.2.1 billingInfoSchema c1Inst true
      c1Elem1 c1Elem2 rfl rfl rfl rfl

/-- C10: whenever `account_code` is obtainable — locally assigned or
recoverable from the retained element, i.e. the attribute read succeeds —
`Account.to_element` output contains an `account_code` child carrying that
value; and whenever `billing_info` is locally assigned, its serialization
is appended as a child. -/
theorem c10_account_to_element (w : World) (inst : Instance) (full : Bool) :
    (∀ v : PyVal, (accountGetattr w inst "account_code").2.2 = .ok v →
      elementForValue "account_code" v ∈ (accountToElement w inst full).2.children)
    ∧ (∀ bi, inst.locals.lookup "billing_info" = some bi →
        pyToElement bi ∈ (accountToElement w inst full).2.children) := by
  constructor
  · intro v hv
    cases hac : inst.locals.lookup "account_code" with
    | some v0 =>
      have hv0 : (accountGetattr w inst "account_code").2.2 = .ok v0 := by
        simp [accountGetattr, hac]
      have hvv : v0 = v := by
        rw [hv0] at hv
        injection hv
      subst hvv
      have hmem0 : elementForValue "account_code" v0
          ∈ (toElement accountSchema inst full).children := by
        rw [toElement, Element.children_mk]
        exact List.mem_filterMap.mpr ⟨"account_code", by decide,
          serializeField_of_lookup_some _ _ _ _ _ (by decide) hac⟩
      cases hbi : inst.locals.lookup "billing_info" with
      | some bi =>
        simp [accountToElement, hac, hbi]
        exact Or.inl hmem0
      | none =>
        simp [accountToElement, hac, hbi]
        exact hmem0
    | none =>
      rcases hacc : accountGetattr w inst "account_code" with ⟨w', i', r⟩
      have hr : r = .ok v := by
        rw [hacc] at hv
        exact hv
      subst hr
      cases hbi : inst.locals.lookup "billing_info" with
      | some bi => simp [accountToElement, hac, hacc, hbi]
      | none => simp [accountToElement, hac, hacc, hbi]
  · intro bi hbi
    cases hac : (inst.locals.lookup "account_code").isSome with
    | true => simp [accountToElement, hac, hbi]
    | false =>
      rcases hacc : accountGetattr w inst "account_code" with ⟨w', i', r⟩
      cases r with
      | ok v => simp [accountToElement, hac, hacc, hbi]
      | error e => simp [accountToElement, hac, hacc, hbi]

/-- C10 witness: on an account hydrated from an element (so `account_code`
is recovered, not locally assigned) with billing info assigned locally, the
serialization contains the recovered `account_code` child and the appended
billing-info serialization. -/
theorem c10_account_to_element_witness :
    elementForValue "account_code" (.str "acme")
        ∈ (accountToElement c10World c10Inst false).2.children
    ∧ pyToElement (.res "billing_info" Option.none
          [("number", .str "4111111111111111")])
        ∈ (accountToElement c10World c10Inst false).2.children :=
  ⟨(c10_account_to_element c10World c10Inst false).1 (.str "acme") rfl,
    (c10_account_to_element c10World c10Inst false).2 _ rfl⟩

end Recurly
